import Mathlib

/-!
Verification of the automation engine of `backend/services/claude_cli_automation.py`
against its natural-language specification.

Each definition below is a shallow embedding of one Python function of that
module; OS interactions (clipboard state, keystroke delivery, process
termination, screen detection) are supplied as explicit oracle parameters so
that the control flow of the source can be reproduced and reasoned about
exactly.  Line numbers in doc comments refer to the source file.
-/

namespace ClaudeCliAutomation

/-! ## ScreenTextDetector.monitor_for_prompts (lines 241-293)

The loop polls `while time.time() - start_time < duration_seconds`; inside each
iteration it takes a screenshot, compares it with the previous one (so no
detection can fire on the very first iteration, where `last_screenshot` is
`None`), and on a detected change runs `detect_yes_proceed_options`; a positive
result returns `status = "found"` with `time_taken = time.time() - start_time`,
and loop exhaustion returns `status = "timeout"` with `time_taken =
duration_seconds` (the parameter itself, line 292).  Time is modelled
discretely: at the start of iteration `t` exactly `t` sleeps of
`check_interval` seconds have elapsed, so the elapsed time is
`t * check_interval`. -/

/-- Oracles for one monitoring session: whether the screen-change comparison at
tick `t` (against the screenshot of tick `t - 1`) reports a change, and whether
`detect_yes_proceed_options` on the screenshot of tick `t` reports `found`. -/
structure MonitorEnv where
  change_detected : Nat → Bool
  prompt_found : Nat → Bool

/-- The detection branch of iteration `t` fires when both the screen-change
test and the option detector are positive (lines 265-273). -/
def fires (env : MonitorEnv) (t : Nat) : Bool :=
  env.change_detected t && env.prompt_found t

inductive MonitorStatus where
  | found
  | timeout
deriving DecidableEq, Repr

structure MonitorResult where
  status : MonitorStatus
  time_taken : Nat
deriving DecidableEq, Repr

/-- One iteration of the `while` loop of `monitor_for_prompts` at tick `t`,
with explicit fuel.  Fuel exhaustion returns the same value as normal loop
exit; `monitor_spec_timeout` and `monitor_spec_found` show the supplied
fuel is never the deciding factor when `1 ≤ check_interval`. -/
def monitorLoop (env : MonitorEnv) (duration_seconds check_interval : Nat) :
    Nat → Nat → MonitorResult
  | 0, _ => { status := .timeout, time_taken := duration_seconds }
  | fuel + 1, t =>
    if t * check_interval < duration_seconds then
      if 1 ≤ t && fires env t then
        { status := .found, time_taken := t * check_interval }
      else
        monitorLoop env duration_seconds check_interval fuel (t + 1)
    else
      { status := .timeout, time_taken := duration_seconds }

/-- `ScreenTextDetector.monitor_for_prompts` (lines 241-293). -/
def monitor_for_prompts (env : MonitorEnv) (duration_seconds check_interval : Nat) :
    MonitorResult :=
  monitorLoop env duration_seconds check_interval (duration_seconds + 1) 0

/-! ## KeyboardController.send_paste_command (lines 1407-1433)

For `attempt in range(max_attempts)` the method calls the single
platform-specific backend selected by `attempt`
(`_macos_paste_with_multiple_methods` on Darwin, attempt 0 = pyautogui
keyDown/keyUp, 1 = pynput, 2 = AppleScript, lines 1435-1479;
`_windows_linux_paste` otherwise, lines 1481-1519); every exception inside a
backend is caught there and turned into `False`, so the backend outcome is a
boolean oracle.  A `True` outcome returns immediately; after the loop the
method returns `False`. -/

structure PasteBackendEnv where
  is_darwin : Bool
  macos_method_ok : Nat → Bool
  winlinux_method_ok : Nat → Bool

/-- The backend consulted for a given attempt index (lines 1415-1427). -/
def paste_backend (env : PasteBackendEnv) (attempt : Nat) : Bool :=
  if env.is_darwin then env.macos_method_ok attempt else env.winlinux_method_ok attempt

/-- The attempt loop of `send_paste_command`: result together with the ordered
trace of attempt indices whose backend was actually invoked. -/
def sendPasteAux (method : Nat → Bool) : Nat → Nat → Bool × List Nat
  | 0, _ => (false, [])
  | n + 1, attempt =>
    if method attempt then
      (true, [attempt])
    else
      let rest := sendPasteAux method n (attempt + 1)
      (rest.1, attempt :: rest.2)

/-- `KeyboardController.send_paste_command` (lines 1407-1433); the second
component is the ordered list of backend invocations performed. -/
def send_paste_command (env : PasteBackendEnv) (max_attempts : Nat) : Bool × List Nat :=
  sendPasteAux (paste_backend env) max_attempts 0

/-! ## ClipboardManager (lines 1178-1398)

Text is modelled as `List Char`.  The real clipboard is an external shared
resource, so the content read back after each backend's write, and whether a
backend raises, are oracle fields of `ClipEnv`. -/

/-- The whitespace characters removed by Python's `str.strip()` (ASCII range). -/
def pyIsSpace (c : Char) : Bool :=
  c = ' ' || c = '\t' || c = '\n' || c = '\r' || c = '\x0b' || c = '\x0c'

/-- Python `str.strip()`. -/
def pyStrip (s : List Char) : List Char :=
  ((s.dropWhile pyIsSpace).reverse.dropWhile pyIsSpace).reverse

/-- Python's substring test `needle in hay`. -/
def isSubstr (needle : List Char) : List Char → Bool
  | [] => needle.isEmpty
  | c :: rest => needle.isPrefixOf (c :: rest) || isSubstr needle rest

/-- `ClipboardManager._verify_copy_success` (lines 1302-1313): requires the
read-back content to be truthy and strictly longer than 10 characters, then
compares the stripped first 100 characters of the expected and actual text by
mutual substring containment. -/
def verify_copy_success (expected_text current_content : List Char) : Bool :=
  if !current_content.isEmpty && decide (10 < current_content.length) then
    let expected_start := pyStrip (expected_text.take 100)
    let current_start := pyStrip (current_content.take 100)
    isSubstr expected_start current_start || isSubstr current_start expected_start
  else
    false

/-- Oracles for one `copy_to_clipboard` call: for each backend, whether its
write raises (exceptions are caught by the per-method `try`, line 1200 etc.)
or reports failure, and what `get_clipboard_content()` — respectively the
`NSPasteboard` read-back for the native method (line 1257) — returns after its
write. -/
structure ClipEnv where
  is_darwin : Bool
  pyperclip_raises : Bool
  clip_after_pyperclip : List Char
  macos_libs_available : Bool
  native_set_ok : Bool
  native_content : List Char
  applescript_raises : Bool
  clip_after_applescript : List Char
  pbcopy_returncode_ok : Bool
  clip_after_pbcopy : List Char

/-- `ClipboardManager._copy_with_macos_native` (lines 1243-1263): returns the
truthiness of `content and text[:100] in content` after a successful
`setString_forType_`. -/
def copy_with_macos_native (env : ClipEnv) (text : List Char) : Bool :=
  env.macos_libs_available && env.native_set_ok &&
    (!env.native_content.isEmpty && isSubstr (text.take 100) env.native_content)

/-- `ClipboardManager.copy_to_clipboard` (lines 1184-1241): pyperclip first
(verified by `_verify_copy_success`), then — on Darwin only — the native
pasteboard API, AppleScript and `pbcopy`, each verified in turn; `False` when
every method fails. -/
def copy_to_clipboard (env : ClipEnv) (text : List Char) : Bool :=
  if !env.pyperclip_raises && verify_copy_success text env.clip_after_pyperclip then
    true
  else if env.is_darwin && copy_with_macos_native env text then
    true
  else if env.is_darwin && !env.applescript_raises &&
      verify_copy_success text env.clip_after_applescript then
    true
  else if env.is_darwin && env.pbcopy_returncode_ok &&
      verify_copy_success text env.clip_after_pbcopy then
    true
  else
    false

/-- The read-back contents a `copy_to_clipboard` call can possibly have
verified against, one per backend. -/
def readbackCandidates (env : ClipEnv) : List (List Char) :=
  [env.clip_after_pyperclip, env.native_content,
   env.clip_after_applescript, env.clip_after_pbcopy]

/-- The spec's "first ~100 characters matched (prefix/substring,
whitespace-tolerant)" relation: the check performed by
`_verify_copy_success`, or the plain containment of the first 100 written
characters used by the native method. -/
def first100Match (text c : List Char) : Bool :=
  isSubstr (pyStrip (text.take 100)) (pyStrip (c.take 100)) ||
  isSubstr (pyStrip (c.take 100)) (pyStrip (text.take 100)) ||
  isSubstr (text.take 100) c

/-! ## ScreenTextDetector.detect_yes_proceed_options (lines 65-239)

The ordered detector chain.  OCR availability and its outcome on the given
screenshot are oracles; the Vision branch (lines 171-198) and the
template-matching branch (lines 200-212) are stubs in the source that always
return `found = False`; the pattern-analysis branch (lines 214-239) is a stub
that always sets `found = True` with `suggested_action = "check_and_enter"`
("临时设为True以便测试", line 232). -/

structure DetectEnv where
  ocr_available : Bool
  is_darwin : Bool
  macos_libs_available : Bool
  ocr_found : Bool
deriving DecidableEq, Repr

structure DetectionResult where
  found : Bool
  detection_method : Option String
  suggested_action : Option String
deriving DecidableEq, Repr

/-- `_detect_with_vision` (lines 171-198): never sets `found`. -/
def detect_with_vision (_env : DetectEnv) : Bool :=
  false

/-- `_detect_with_template_matching` (lines 200-212): never sets `found`. -/
def detect_with_template_matching (_env : DetectEnv) : Bool :=
  false

/-- `_detect_with_pattern_analysis` (lines 214-239): unconditionally reports a
match (line 232 sets `result["found"] = True` as a placeholder). -/
def detect_with_pattern_analysis (_env : DetectEnv) : Bool × Option String :=
  (true, some "check_and_enter")

/-- `ScreenTextDetector.detect_yes_proceed_options` (lines 65-121). -/
def detect_yes_proceed_options (env : DetectEnv) : DetectionResult :=
  if env.ocr_available && env.ocr_found then
    { found := true, detection_method := some "OCR", suggested_action := some "press_enter" }
  else if env.is_darwin && env.macos_libs_available && detect_with_vision env then
    { found := true, detection_method := some "macOS Vision", suggested_action := none }
  else if detect_with_template_matching env then
    { found := true, detection_method := some "Template Matching", suggested_action := none }
  else if (detect_with_pattern_analysis env).1 then
    { found := true, detection_method := some "Pattern Analysis",
      suggested_action := (detect_with_pattern_analysis env).2 }
  else
    { found := false, detection_method := none, suggested_action := none }

/-! ## WindowManager process cleanup (lines 341-824)

Process snapshots carry the fields the cleanup code consults; `create_time`,
`cpu_percent` and `memory_usage` are Python floats, modelled as exact
rationals.  `psutil` enumeration and classification are external, so the
already-classified process list is an input, and the outcome of each
termination attempt is the oracle `termOk` on the process id (a failed attempt
is recorded in `errors` and not in `cleaned_processes`, lines 721-726). -/

structure ClaudeProc where
  pid : Nat
  create_time : ℚ
deriving DecidableEq, Repr

/-- The descending-`create_time` comparison used by
`claude_windows.sort(key=lambda x: x['create_time'], reverse=True)`
(line 401); Python's sort is stable, as is `List.insertionSort`. -/
def newerClaude (a b : ClaudeProc) : Prop :=
  b.create_time ≤ a.create_time

instance : DecidableRel newerClaude :=
  fun a b => inferInstanceAs (Decidable (b.create_time ≤ a.create_time))

instance : IsTotal ClaudeProc newerClaude :=
  ⟨fun a b => le_total b.create_time a.create_time⟩

instance : IsTrans ClaudeProc newerClaude :=
  ⟨fun _ _ _ hab hbc => le_trans hbc hab⟩

/-- `WindowManager.find_claude_cli_windows` (lines 341-404), restricted to its
ordering behaviour on the classified snapshot list: newest first. -/
def find_claude_cli_windows (procs : List ClaudeProc) : List ClaudeProc :=
  List.insertionSort newerClaude procs

structure CleanupResult (α : Type) where
  cleaned_processes : List α
  kept_processes : List α
  errors : List Nat
deriving DecidableEq, Repr

/-- `WindowManager.cleanup_old_claude_processes` (lines 676-736). -/
def cleanup_old_claude_processes (termOk : Nat → Bool) (procs : List ClaudeProc)
    (keep_newest : Nat) : CleanupResult ClaudeProc :=
  let claude_processes := find_claude_cli_windows procs
  if claude_processes.length ≤ keep_newest then
    { cleaned_processes := [], kept_processes := claude_processes, errors := [] }
  else
    let processes_to_keep := claude_processes.take keep_newest
    let processes_to_clean := claude_processes.drop keep_newest
    { cleaned_processes := processes_to_clean.filter (fun p => termOk p.pid),
      kept_processes := processes_to_keep,
      errors := (processes_to_clean.filter (fun p => !termOk p.pid)).map (fun p => p.pid) }

structure TermProc where
  pid : Nat
  create_time : ℚ
  cpu_percent : ℚ
  memory_usage : ℚ
deriving DecidableEq, Repr

def newerTerm (a b : TermProc) : Prop :=
  b.create_time ≤ a.create_time

instance : DecidableRel newerTerm :=
  fun a b => inferInstanceAs (Decidable (b.create_time ≤ a.create_time))

instance : IsTotal TermProc newerTerm :=
  ⟨fun a b => le_total b.create_time a.create_time⟩

instance : IsTrans TermProc newerTerm :=
  ⟨fun _ _ _ hab hbc => le_trans hbc hab⟩

/-- `WindowManager.find_terminal_processes` (lines 624-674): classified
terminal-host snapshots, sorted newest first (line 671). -/
def find_terminal_processes (procs : List TermProc) : List TermProc :=
  List.insertionSort newerTerm procs

/-- The inner `process_score` of `cleanup_old_terminal_processes`
(lines 754-762): creation time plus `cpu_percent * 100` plus the
megabyte-capped memory share. -/
def process_score (p : TermProc) : ℚ :=
  p.create_time + p.cpu_percent * 100 + min (p.memory_usage / (1024 * 1024)) 100

/-- The descending-`process_score` comparison of
`terminal_processes.sort(key=process_score, reverse=True)` (line 764). -/
def higherScore (a b : TermProc) : Prop :=
  process_score b ≤ process_score a

instance : DecidableRel higherScore :=
  fun a b => inferInstanceAs (Decidable (process_score b ≤ process_score a))

instance : IsTotal TermProc higherScore :=
  ⟨fun a b => le_total (process_score b) (process_score a)⟩

instance : IsTrans TermProc higherScore :=
  ⟨fun _ _ _ hab hbc => le_trans hbc hab⟩

/-- `WindowManager.cleanup_old_terminal_processes` (lines 738-824). -/
def cleanup_old_terminal_processes (termOk : Nat → Bool) (procs : List TermProc)
    (max_terminals : Nat) : CleanupResult TermProc :=
  let terminal_processes := find_terminal_processes procs
  if terminal_processes.length ≤ max_terminals then
    { cleaned_processes := [], kept_processes := terminal_processes, errors := [] }
  else
    let sorted := List.insertionSort higherScore terminal_processes
    let processes_to_keep := sorted.take max_terminals
    let processes_to_clean := sorted.drop max_terminals
    { cleaned_processes := processes_to_clean.filter (fun p => termOk p.pid),
      kept_processes := processes_to_keep,
      errors := (processes_to_clean.filter (fun p => !termOk p.pid)).map (fun p => p.pid) }

/-! ## ClaudeCLIAutomation.open_claude_cli_with_prompt (lines 1921-2136)

The whole body is one `try` block whose `except Exception` clause (lines
2121-2136) returns an error dictionary, so the method always returns a value;
exceptions raised inside the body are modelled with `Except`.  Step outcomes
delivered by the leaf components (launch, window activation, clipboard copy
and verification, input focus, the three paste methods, `send_enter`) are
boolean oracles; every one of those helpers catches its own exceptions and
returns a boolean, per their definitions.  The paste methods append their name
to `paste_methods_tried` only on success and later methods run only while
`paste_success` is false (lines 1987-2036).  Line 2043 sets
`paste_verified = True` exactly when `paste_success` is true.  The local
`enter_methods_tried` is assigned only in the two branches that skip
submission (lines 2068 and 2074); in the submission branch it stays unbound,
which the `Option` value below records, and referencing it while building the
return dictionary (line 2094) raises `UnboundLocalError`. -/

structure WorkflowEnv where
  file_exists : Bool
  launch_ok : Bool
  activation_ok : Bool
  copy_ok : Bool
  clip_verify_ok : Bool
  focus_ok : Bool
  is_windows : Bool
  is_darwin : Bool
  right_click_paste_ok : Bool
  std_paste_ok : Bool
  pynput_paste_ok : Bool
  enter_ok : Bool
deriving DecidableEq, Repr

structure WorkflowReport where
  status : String
  window_activation_success : Bool
  paste_success : Bool
  paste_verified : Bool
  enter_success : Bool
  focus_ready : Bool
  paste_methods : List String
  enter_methods : List String
  next_manual_steps : List String
deriving DecidableEq, Repr

inductive WorkflowReturn where
  | report (r : WorkflowReport)
  | errorReport (message : String) (fallback_instructions : List String)
deriving DecidableEq, Repr

/-- The paste-method fallback chain (lines 1987-2036): the Windows-only
right-click paste, then `send_paste_command`, then the inline pynput paste;
result together with `paste_methods_tried`. -/
def pasteMethodsStage (env : WorkflowEnv) : Bool × List String :=
  let s1 : Bool × List String :=
    if env.is_windows && env.right_click_paste_ok then (true, ["鼠标右键粘贴"]) else (false, [])
  let s2 : Bool × List String :=
    if !s1.1 && env.std_paste_ok then
      (true, s1.2 ++ [if env.is_darwin then "标准Cmd+V" else "标准Ctrl+V"])
    else s1
  if !s2.1 && env.pynput_paste_ok then (true, s2.2 ++ ["pynput"]) else s2

/-- Execution trace of the `try` block of `open_claude_cli_with_prompt`:
its outcome (a report, or the exception that escaped to the method's own
handler) together with which stages ran. -/
structure WorkflowTrace where
  result : Except String WorkflowReport
  reached_paste : Bool
  paste_success : Bool
  paste_verified : Bool
  enter_attempted : Bool
deriving Repr

/-- The `try` block of `open_claude_cli_with_prompt` (lines 1931-2119).
`prompt_file` is the path argument and `env.file_exists` the value of
`os.path.exists(prompt_file)`. -/
def runWorkflow (env : WorkflowEnv) (prompt_file : String) : WorkflowTrace :=
  if !env.file_exists then
    { result := .error ("提示词文件不存在: " ++ prompt_file), reached_paste := false,
      paste_success := false, paste_verified := false, enter_attempted := false }
  else if !env.launch_ok then
    { result := .error "无法启动 Claude CLI", reached_paste := false,
      paste_success := false, paste_verified := false, enter_attempted := false }
  else if !env.copy_ok then
    { result := .error "复制提示词到剪贴板失败", reached_paste := false,
      paste_success := false, paste_verified := false, enter_attempted := false }
  else
    let activation_success := env.activation_ok
    let focus_ready := env.focus_ok
    let stage := pasteMethodsStage env
    let paste_success := stage.1
    let paste_methods_tried := stage.2
    let paste_verified := paste_success
    let enter_attempted := paste_success && paste_verified
    let enter_success := enter_attempted && env.enter_ok
    let enter_methods_tried : Option (List String) :=
      if paste_success && paste_verified then none else some []
    match enter_methods_tried with
    | none =>
      { result := .error "UnboundLocalError: enter_methods_tried",
        reached_paste := true, paste_success := paste_success,
        paste_verified := paste_verified, enter_attempted := enter_attempted }
    | some ems =>
      { result := .ok
          { status := "success",
            window_activation_success := activation_success,
            paste_success := paste_success,
            paste_verified := paste_verified,
            enter_success := enter_success,
            focus_ready := focus_ready,
            paste_methods := paste_methods_tried,
            enter_methods := ems,
            next_manual_steps :=
              (if !activation_success then ["请手动点击 Claude CLI 窗口"] else []) ++
              (if !paste_success then
                [if env.is_darwin then "按 Cmd+V 粘贴提示词" else "按 Ctrl+V 粘贴提示词"]
               else []) ++
              (if !enter_success then ["按 Enter 键发送提示词"] else []) },
        reached_paste := true, paste_success := paste_success,
        paste_verified := paste_verified, enter_attempted := enter_attempted }

/-- The fallback instructions of the error dictionary (lines 2130-2135). -/
def fallbackInstructions (env : WorkflowEnv) : List String :=
  ["请手动完成以下步骤:",
   "1. 点击 Claude CLI 窗口激活它",
   if env.is_darwin then "2. 按 Cmd+V 粘贴提示词" else "2. 按 Ctrl+V 粘贴提示词",
   "3. 按 Enter 键发送提示词"]

/-- `ClaudeCLIAutomation.open_claude_cli_with_prompt` (lines 1921-2136): the
`try` block plus the method's own `except Exception` handler, which converts
any exception into a returned error dictionary, so the method itself never
raises. -/
def open_claude_cli_with_prompt (env : WorkflowEnv) (prompt_file : String) :
    WorkflowReturn :=
  match (runWorkflow env prompt_file).result with
  | .ok r => .report r
  | .error msg => .errorReport ("GUI 自动化失败: " ++ msg) (fallbackInstructions env)

/-! ## Concrete inputs used by the witnesses below -/

def allFailPasteEnv : PasteBackendEnv :=
  { is_darwin := true, macos_method_ok := fun _ => false,
    winlinux_method_ok := fun _ => false }

/-- A fully nominal run: the file exists, launch, activation, clipboard copy
and verification, input focus, the standard (Cmd+V) paste and `send_enter`
all succeed. -/
def happyEnv : WorkflowEnv :=
  { file_exists := true, launch_ok := true, activation_ok := true, copy_ok := true,
    clip_verify_ok := true, focus_ok := true, is_windows := false, is_darwin := true,
    right_click_paste_ok := false, std_paste_ok := true, pynput_paste_ok := true,
    enter_ok := true }

def missingFileEnv : WorkflowEnv :=
  { happyEnv with file_exists := false }

/-- An environment in which setup succeeds but every paste method fails (and
window activation fails as well). -/
def pasteFailEnv : WorkflowEnv :=
  { file_exists := true, launch_ok := true, activation_ok := false, copy_ok := true,
    clip_verify_ok := true, focus_ok := false, is_windows := false, is_darwin := true,
    right_click_paste_ok := false, std_paste_ok := false, pynput_paste_ok := false,
    enter_ok := true }

def witClaude1 : ClaudeProc := { pid := 10, create_time := 5 }

def witClaude2 : ClaudeProc := { pid := 11, create_time := 7 }

/-- An older terminal process with some CPU activity. -/
def witTermOld : TermProc :=
  { pid := 1, create_time := 100, cpu_percent := 2, memory_usage := 0 }

/-- A newer but idle terminal process. -/
def witTermNew : TermProc :=
  { pid := 2, create_time := 101, cpu_percent := 0, memory_usage := 0 }

def witClipText : List Char := "automation prompt text".toList

def witClipEnv : ClipEnv :=
  { is_darwin := false, pyperclip_raises := false,
    clip_after_pyperclip := witClipText, macos_libs_available := false,
    native_set_ok := false, native_content := [], applescript_raises := true,
    clip_after_applescript := [], pbcopy_returncode_ok := false,
    clip_after_pbcopy := [] }

/-! ## Theorems -/

/-- C7: when every configured paste-injection backend fails,
`send_paste_command` with `max_attempts = 3` invokes the backend for attempt
0, then 1, then 2, each exactly once and in order, and returns `false`
(every backend exception is caught inside the backend helper, so nothing is
raised to the caller). -/
theorem send_paste_command_exhausts_backends (env : PasteBackendEnv)
    (h : ∀ a, a < 3 → paste_backend env a = false) :
    send_paste_command env 3 = (false, [0, 1, 2]) := by
  have h0 := h 0 (by omega)
  have h1 := h 1 (by omega)
  have h2 := h 2 (by omega)
  simp [send_paste_command, sendPasteAux, h0, h1, h2]

/-- Witness for C7 at a concrete all-failing environment. -/
theorem send_paste_command_exhausts_backends_witness :
    send_paste_command allFailPasteEnv 3 = (false, [0, 1, 2]) :=
  send_paste_command_exhausts_backends allFailPasteEnv (fun _ _ => rfl)

/-- C5 (evaluation at the failing input): on a screenshot for which OCR
reports no match, with the Vision and template detectors — stubs that never
report a match — also negative, `detect_yes_proceed_options` still returns
`found = true` with the pattern-analysis heuristic standing alone as the
final answer, because `_detect_with_pattern_analysis` unconditionally sets
`found = True` (line 232). -/
theorem detect_pattern_analysis_stands_alone :
    detect_yes_proceed_options
        { ocr_available := true, is_darwin := false,
          macos_libs_available := false, ocr_found := false } =
      { found := true, detection_method := some "Pattern Analysis",
        suggested_action := some "check_and_enter" } ∧
    detect_with_vision
        { ocr_available := true, is_darwin := false,
          macos_libs_available := false, ocr_found := false } = false ∧
    detect_with_template_matching
        { ocr_available := true, is_darwin := false,
          macos_libs_available := false, ocr_found := false } = false := by
  decide

/-- Helper: `_verify_copy_success` rejects every read-back of at most 10
characters (line 1306 requires `len(current_content) > 10`). -/
theorem verify_copy_success_short (expected current : List Char)
    (h : current.length ≤ 10) : verify_copy_success expected current = false := by
  have h10 : ¬ (10 < current.length) := Nat.not_lt.mpr h
  simp [verify_copy_success, h10]

/-- C10: on a non-macOS platform, when the pyperclip write succeeds and the
clipboard read-back is exactly the written text, `copy_to_clipboard` still
returns `false` for every text of length at most 10, because
`_verify_copy_success` rejects every clipboard content of 10 or fewer
characters and the remaining backends are Darwin-only. -/
theorem copy_to_clipboard_rejects_short_text :
    (∀ expected current : List Char, current.length ≤ 10 →
      verify_copy_success expected current = false) ∧
    (∀ (env : ClipEnv) (text : List Char), env.is_darwin = false →
      env.pyperclip_raises = false → env.clip_after_pyperclip = text →
      text.length ≤ 10 → copy_to_clipboard env text = false) := by
  refine ⟨verify_copy_success_short, ?_⟩
  intro env text hdarwin hraises hclip hlen
  have hv : verify_copy_success text env.clip_after_pyperclip = false := by
    rw [hclip]
    exact verify_copy_success_short text text hlen
  simp [copy_to_clipboard, hdarwin, hraises, hv]

/-- Witness for C10: the 5-character text "hello", faithfully written to the
clipboard on a non-macOS platform, is still reported as a copy failure. -/
theorem copy_to_clipboard_rejects_short_text_witness :
    copy_to_clipboard
      { is_darwin := false, pyperclip_raises := false,
        clip_after_pyperclip := "hello".toList, macos_libs_available := false,
        native_set_ok := false, native_content := [], applescript_raises := true,
        clip_after_applescript := [], pbcopy_returncode_ok := false,
        clip_after_pbcopy := [] } "hello".toList = false :=
  copy_to_clipboard_rejects_short_text.2
    { is_darwin := false, pyperclip_raises := false,
      clip_after_pyperclip := "hello".toList, macos_libs_available := false,
      native_set_ok := false, native_content := [], applescript_raises := true,
      clip_after_applescript := [], pbcopy_returncode_ok := false,
      clip_after_pbcopy := [] } "hello".toList rfl rfl rfl (by decide)

/-- C2 (evaluation at the failing input): on the fully successful run the
`try` block raises `UnboundLocalError` while building the success dictionary
(line 2094 reads `enter_methods_tried`, which lines 2068/2074 assign only in
the branches that skip submission), the Enter key having already been sent;
the method's own handler absorbs the exception, so the call returns the
`status = "error"` dictionary instead of the `status = "success"` report
demanded by the claim. -/
theorem happy_path_hits_unbound_local :
    (runWorkflow happyEnv "prompt.txt").result =
      .error "UnboundLocalError: enter_methods_tried" ∧
    (runWorkflow happyEnv "prompt.txt").enter_attempted = true ∧
    open_claude_cli_with_prompt happyEnv "prompt.txt" =
      .errorReport "GUI 自动化失败: UnboundLocalError: enter_methods_tried"
        (fallbackInstructions happyEnv) :=
  ⟨rfl, rfl, rfl⟩

/-- C4 (counterexample): invoking the workflow with a prompt-file path that
does not exist does NOT raise to the caller: the `FileNotFoundError` raised
inside the `try` block (line 1933) is caught by the method's own
`except Exception` handler (line 2121), and the call returns the error
dictionary with fallback instructions. -/
theorem missing_file_returns_error_report :
    (runWorkflow missingFileEnv "no_such_file.txt").result =
      .error "提示词文件不存在: no_such_file.txt" ∧
    open_claude_cli_with_prompt missingFileEnv "no_such_file.txt" =
      .errorReport "GUI 自动化失败: 提示词文件不存在: no_such_file.txt"
        (fallbackInstructions missingFileEnv) :=
  ⟨rfl, rfl⟩

/-- C4 (amended): no failure raises to the caller.  A missing prompt file is
absorbed by the workflow's own exception handler and returned as an error
report with fallback-instruction remediation text; clipboard exhaustion is
absorbed the same way; and a run whose paste step fails returns the
success-shaped report with the failure recorded in its fields and the
corresponding manual remediation steps listed. -/
theorem workflow_absorbs_failures (env : WorkflowEnv) (pf : String) :
    (env.file_exists = false →
      open_claude_cli_with_prompt env pf =
        .errorReport ("GUI 自动化失败: " ++ ("提示词文件不存在: " ++ pf))
          (fallbackInstructions env)) ∧
    (env.file_exists = true → env.launch_ok = true → env.copy_ok = false →
      open_claude_cli_with_prompt env pf =
        .errorReport "GUI 自动化失败: 复制提示词到剪贴板失败"
          (fallbackInstructions env)) ∧
    (env.file_exists = true → env.launch_ok = true → env.copy_ok = true →
     (pasteMethodsStage env).1 = false →
      ∃ r, open_claude_cli_with_prompt env pf = .report r ∧
        r.paste_success = false ∧ r.enter_success = false ∧
        r.window_activation_success = env.activation_ok ∧
        (if env.is_darwin then "按 Cmd+V 粘贴提示词" else "按 Ctrl+V 粘贴提示词")
          ∈ r.next_manual_steps ∧
        "按 Enter 键发送提示词" ∈ r.next_manual_steps ∧
        (env.activation_ok = false →
          "请手动点击 Claude CLI 窗口" ∈ r.next_manual_steps)) := by
  refine ⟨?_, ?_, ?_⟩
  · intro hf
    simp [open_claude_cli_with_prompt, runWorkflow, hf]
  · intro hf hl hc
    simp [open_claude_cli_with_prompt, runWorkflow, hf, hl, hc]
  · intro hf hl hc hps
    refine ⟨⟨"success", env.activation_ok, false, false, false, env.focus_ok,
            (pasteMethodsStage env).2, [],
            (if !env.activation_ok then ["请手动点击 Claude CLI 窗口"] else []) ++
            [if env.is_darwin then "按 Cmd+V 粘贴提示词" else "按 Ctrl+V 粘贴提示词"] ++
            ["按 Enter 键发送提示词"]⟩, ?_, rfl, rfl, rfl, ?_, ?_, ?_⟩
    · simp [open_claude_cli_with_prompt, runWorkflow, hf, hl, hc, hps]
    · cases ha : env.activation_ok <;> cases hd : env.is_darwin <;> simp [ha, hd]
    · cases ha : env.activation_ok <;> cases hd : env.is_darwin <;> simp [ha, hd]
    · intro ha
      cases hd : env.is_darwin <;> simp [ha, hd]

/-- Witness for C4's amended claim, covering all three absorption scenarios
at concrete inputs. -/
theorem workflow_absorbs_failures_witness :
    (open_claude_cli_with_prompt missingFileEnv "w.txt" =
      .errorReport ("GUI 自动化失败: " ++ ("提示词文件不存在: " ++ "w.txt"))
        (fallbackInstructions missingFileEnv)) ∧
    (open_claude_cli_with_prompt { happyEnv with copy_ok := false } "w.txt" =
      .errorReport "GUI 自动化失败: 复制提示词到剪贴板失败"
        (fallbackInstructions { happyEnv with copy_ok := false })) ∧
    (∃ r, open_claude_cli_with_prompt pasteFailEnv "w.txt" = .report r ∧
      r.paste_success = false ∧ r.enter_success = false ∧
      r.window_activation_success = pasteFailEnv.activation_ok ∧
      (if pasteFailEnv.is_darwin then "按 Cmd+V 粘贴提示词" else "按 Ctrl+V 粘贴提示词")
        ∈ r.next_manual_steps ∧
      "按 Enter 键发送提示词" ∈ r.next_manual_steps ∧
      (pasteFailEnv.activation_ok = false →
        "请手动点击 Claude CLI 窗口" ∈ r.next_manual_steps)) :=
  ⟨(workflow_absorbs_failures missingFileEnv "w.txt").1 rfl,
   (workflow_absorbs_failures { happyEnv with copy_ok := false } "w.txt").2.1 rfl rfl rfl,
   (workflow_absorbs_failures pasteFailEnv "w.txt").2.2 rfl rfl rfl rfl⟩

/-- C1: the Enter-submission step of `open_claude_cli_with_prompt` executes
only when the paste-verification step reported `verified = true`; in every
execution that reaches the paste stage with paste verification false, no
Enter key is sent, and the returned report carries an empty Enter-method
list and `enter_success = false`. -/
theorem submit_only_if_paste_verified (env : WorkflowEnv) (pf : String) :
    ((runWorkflow env pf).enter_attempted = true →
      (runWorkflow env pf).paste_verified = true) ∧
    ((runWorkflow env pf).reached_paste = true →
     (runWorkflow env pf).paste_verified = false →
      (runWorkflow env pf).enter_attempted = false ∧
      ∃ r, (runWorkflow env pf).result = .ok r ∧
        r.enter_methods = [] ∧ r.enter_success = false) := by
  unfold runWorkflow
  cases hf : env.file_exists
  · simp
  · cases hl : env.launch_ok
    · simp
    · cases hc : env.copy_ok
      · simp
      · cases hs : (pasteMethodsStage env).1 <;> simp [hs]

/-- Witness for C1 at a concrete environment whose paste stage fails, hence
whose paste verification is false. -/
theorem submit_only_if_paste_verified_witness :
    (runWorkflow pasteFailEnv "p.txt").enter_attempted = false ∧
    ∃ r, (runWorkflow pasteFailEnv "p.txt").result = .ok r ∧
      r.enter_methods = [] ∧ r.enter_success = false :=
  (submit_only_if_paste_verified pasteFailEnv "p.txt").2 rfl rfl

/-- Helper: when no iteration from tick `t` onward fires inside the window,
the loop returns the timeout result with `time_taken` equal to the duration
parameter. -/
theorem monitorLoop_timeout (env : MonitorEnv) (d i : Nat) (fuel : Nat) :
    ∀ t, (∀ t', t ≤ t' → 1 ≤ t' → t' * i < d → fires env t' = false) →
    monitorLoop env d i fuel t = { status := .timeout, time_taken := d } := by
  induction fuel with
  | zero => intro t _; rfl
  | succ n ih =>
    intro t h
    unfold monitorLoop
    by_cases hw : t * i < d
    · rw [if_pos hw]
      have hnf : (decide (1 ≤ t) && fires env t) = false := by
        rcases Nat.eq_zero_or_pos t with h0 | hp
        · subst h0; simp
        · rw [h t le_rfl hp hw, Bool.and_false]
      rw [hnf, if_neg (by simp)]
      exact ih (t + 1) (fun t' ht' h1 hsub => h t' (by omega) h1 hsub)
    · rw [if_neg hw]

/-- Helper: when tick `t0 ≥ 1` is the first tick inside the window at which
the detection fires, the loop stops there and returns the found result with
`time_taken = t0 * i`, given enough fuel to reach `t0`. -/
theorem monitorLoop_found (env : MonitorEnv) (d i : Nat) (t0 : Nat)
    (h1 : 1 ≤ t0) (hw : t0 * i < d) (hf : fires env t0 = true)
    (hmin : ∀ t', 1 ≤ t' → t' < t0 → fires env t' = false) :
    ∀ fuel t, t ≤ t0 → t0 - t < fuel →
    monitorLoop env d i fuel t = { status := .found, time_taken := t0 * i } := by
  intro fuel
  induction fuel with
  | zero => intro t _ hlt; omega
  | succ n ih =>
    intro t hle hlt
    unfold monitorLoop
    have hti : t * i < d := Nat.lt_of_le_of_lt (Nat.mul_le_mul_right i hle) hw
    rw [if_pos hti]
    rcases Nat.lt_or_ge t t0 with hlt0 | hge
    · have hnf : (decide (1 ≤ t) && fires env t) = false := by
        rcases Nat.eq_zero_or_pos t with h0 | hp
        · subst h0; simp
        · rw [hmin t hp hlt0, Bool.and_false]
      rw [hnf, if_neg (by simp)]
      exact ih (t + 1) (by omega) (by omega)
    · have ht : t = t0 := le_antisymm hle (le_antisymm hge hle ▸ le_rfl)
      subst ht
      have hcond : (decide (1 ≤ t) && fires env t) = true := by
        rw [hf, decide_eq_true h1, Bool.true_and]
      rw [hcond, if_pos rfl]

/-- C6: for every finite duration and positive poll interval,
`monitor_for_prompts` terminates with either the found or the timeout
status: if no detection fires at any poll tick inside the window it returns
`status = timeout` with `time_taken` equal to the duration parameter
(line 292 returns `duration_seconds` itself), and if the detection first
fires at tick `t0` (necessarily `t0 ≥ 1`: the first iteration has no
previous screenshot to compare) it stops polling immediately and returns
`status = found` with `time_taken` equal to the elapsed time
`t0 * check_interval` at that tick. -/
theorem monitor_for_prompts_spec (env : MonitorEnv) (d i : Nat) (hi : 1 ≤ i) :
    ((∀ t, 1 ≤ t → t * i < d → fires env t = false) →
      monitor_for_prompts env d i = { status := .timeout, time_taken := d }) ∧
    (∀ t0, 1 ≤ t0 → t0 * i < d → fires env t0 = true →
      (∀ t, 1 ≤ t → t < t0 → fires env t = false) →
      monitor_for_prompts env d i = { status := .found, time_taken := t0 * i }) := by
  constructor
  · intro h
    exact monitorLoop_timeout env d i (d + 1) 0 (fun t' _ h1 hw => h t' h1 hw)
  · intro t0 h1 hw hf hmin
    have hle : t0 ≤ t0 * i := Nat.le_mul_of_pos_right t0 hi
    have ht0d : t0 < d := Nat.lt_of_le_of_lt hle hw
    exact monitorLoop_found env d i t0 h1 hw hf hmin (d + 1) 0 (Nat.zero_le _) (by omega)

/-- Witness for C6: the spec's own scenario — duration 10, poll interval 2,
detector firing at tick 2 — returns found with elapsed time 4. -/
theorem monitor_for_prompts_spec_witness :
    monitor_for_prompts
      { change_detected := fun t => decide (t = 2), prompt_found := fun t => decide (t = 2) }
      10 2 = { status := .found, time_taken := 4 } :=
  (monitor_for_prompts_spec
      { change_detected := fun t => decide (t = 2), prompt_found := fun t => decide (t = 2) }
      10 2 (by decide)).2 2 (by decide) (by decide) (by decide)
    (fun t h1 h2 => by
      have : t = 1 := by omega
      subst this
      decide)

/-- C3: for `N ≥ 1` classified Claude processes with pairwise-distinct
creation times and `1 ≤ k ≤ N`, cleanup with `keep_newest = k` retains
exactly `k` processes, the retained and the terminated lists together are a
permutation of the input, every terminated process was created strictly
earlier than every retained one (so the retained ones are exactly the `k`
with the largest `create_time`), and — every termination attempt
succeeding — the lengths of the two lists sum to `N`. -/
theorem cleanup_old_claude_processes_spec (termOk : Nat → Bool)
    (procs : List ClaudeProc) (k : Nat) (_hk1 : 1 ≤ k) (hkN : k ≤ procs.length)
    (hdist : procs.Pairwise (fun a b => a.create_time ≠ b.create_time))
    (hterm : ∀ p ∈ procs, termOk p.pid = true) :
    (cleanup_old_claude_processes termOk procs k).kept_processes.length = k ∧
    ((cleanup_old_claude_processes termOk procs k).kept_processes ++
      (cleanup_old_claude_processes termOk procs k).cleaned_processes).Perm procs ∧
    (∀ p ∈ (cleanup_old_claude_processes termOk procs k).kept_processes,
     ∀ q ∈ (cleanup_old_claude_processes termOk procs k).cleaned_processes,
      q.create_time < p.create_time) ∧
    (cleanup_old_claude_processes termOk procs k).kept_processes.length +
      (cleanup_old_claude_processes termOk procs k).cleaned_processes.length =
      procs.length := by
  have hperm : (find_claude_cli_windows procs).Perm procs :=
    List.perm_insertionSort newerClaude procs
  have hlen : (find_claude_cli_windows procs).length = procs.length :=
    hperm.length_eq
  have hsort : List.Pairwise newerClaude (find_claude_cli_windows procs) :=
    List.sorted_insertionSort newerClaude procs
  have hdist' : (find_claude_cli_windows procs).Pairwise
      (fun a b => a.create_time ≠ b.create_time) :=
    hdist.perm hperm.symm (fun hne => hne.symm)
  unfold cleanup_old_claude_processes
  by_cases hc : (find_claude_cli_windows procs).length ≤ k
  · rw [if_pos hc]
    have hkeq : k = procs.length := le_antisymm hkN (hlen ▸ hc)
    refine ⟨by simpa [hlen] using hkeq.symm, by simpa using hperm, ?_, ?_⟩
    · intro p _ q hq
      simp at hq
    · simp [hlen, hkeq]
  · rw [if_neg hc]
    dsimp only
    push_neg at hc
    have hfilter : ((find_claude_cli_windows procs).drop k).filter
        (fun p => termOk p.pid) = (find_claude_cli_windows procs).drop k := by
      apply List.filter_eq_self.mpr
      intro p hp
      exact hterm p (hperm.subset (List.mem_of_mem_drop hp))
    refine ⟨?_, ?_, ?_, ?_⟩
    · simpa using le_of_lt hc
    · rw [hfilter, List.take_append_drop]
      exact hperm
    · intro p hp q hq
      rw [hfilter] at hq
      have hle : newerClaude p q := hsort.rel_of_mem_take_of_mem_drop hp hq
      have hne : p.create_time ≠ q.create_time :=
        hdist'.rel_of_mem_take_of_mem_drop hp hq
      exact lt_of_le_of_ne hle (fun h => hne h.symm)
    · rw [hfilter]
      simp only [List.length_take, List.length_drop, hlen]
      omega

/-- Witness for C3 with two processes of distinct creation times and
`keep_newest = 1`. -/
theorem cleanup_old_claude_processes_spec_witness :
    (cleanup_old_claude_processes (fun _ => true) [witClaude1, witClaude2] 1).kept_processes.length = 1 ∧
    ((cleanup_old_claude_processes (fun _ => true) [witClaude1, witClaude2] 1).kept_processes ++
      (cleanup_old_claude_processes (fun _ => true) [witClaude1, witClaude2] 1).cleaned_processes).Perm
      [witClaude1, witClaude2] ∧
    (∀ p ∈ (cleanup_old_claude_processes (fun _ => true) [witClaude1, witClaude2] 1).kept_processes,
     ∀ q ∈ (cleanup_old_claude_processes (fun _ => true) [witClaude1, witClaude2] 1).cleaned_processes,
      q.create_time < p.create_time) ∧
    (cleanup_old_claude_processes (fun _ => true) [witClaude1, witClaude2] 1).kept_processes.length +
      (cleanup_old_claude_processes (fun _ => true) [witClaude1, witClaude2] 1).cleaned_processes.length =
      [witClaude1, witClaude2].length :=
  cleanup_old_claude_processes_spec (fun _ => true) [witClaude1, witClaude2] 1
    (by decide) (by decide) (by decide) (by decide)

/-- C8 (counterexample): terminal cleanup with `max_terminals = 1` on these
two processes retains the OLDER one — `process_score` adds
`cpu_percent * 100` (score 300 for the old busy process versus 101 for the
new idle one) — so it does not retain the process with the largest creation
time, contradicting the claim. -/
theorem cleanup_old_terminal_processes_not_most_recent :
    (cleanup_old_terminal_processes (fun _ => true) [witTermOld, witTermNew] 1).kept_processes
      = [witTermOld] ∧
    (cleanup_old_terminal_processes (fun _ => true) [witTermOld, witTermNew] 1).cleaned_processes
      = [witTermNew] ∧
    witTermOld.create_time < witTermNew.create_time := by
  have hs1 : process_score witTermOld = 300 := by
    norm_num [process_score, witTermOld]
  have hs2 : process_score witTermNew = 101 := by
    norm_num [process_score, witTermNew]
  have hno : ¬ newerTerm witTermOld witTermNew := by
    norm_num [newerTerm, witTermOld, witTermNew]
  have hnh : ¬ higherScore witTermNew witTermOld := by
    rw [higherScore, hs1, hs2]
    norm_num
  refine ⟨?_, ?_, ?_⟩
  · simp [cleanup_old_terminal_processes, find_terminal_processes, hno, hnh]
  · simp [cleanup_old_terminal_processes, find_terminal_processes, hno, hnh]
  · norm_num [witTermOld, witTermNew]

/-- C8 (amended): terminal cleanup with `max_terminals = k` retains exactly
`min k N` processes; when `k < N` and every termination attempt succeeds,
the retained and terminated lists together are a permutation of the input
and every terminated process has a `process_score`
(`create_time + cpu_percent * 100 + min(memory_MB, 100)`) at most that of
every retained one: the retained processes are the `k` with the largest
scores (ties broken by the stable sort order, not by PID), not the `k` most
recently created. -/
theorem cleanup_old_terminal_processes_spec (termOk : Nat → Bool)
    (procs : List TermProc) (k : Nat)
    (hterm : ∀ p ∈ procs, termOk p.pid = true) :
    (cleanup_old_terminal_processes termOk procs k).kept_processes.length =
      min k procs.length ∧
    ((cleanup_old_terminal_processes termOk procs k).kept_processes ++
      (cleanup_old_terminal_processes termOk procs k).cleaned_processes).Perm procs ∧
    (∀ p ∈ (cleanup_old_terminal_processes termOk procs k).kept_processes,
     ∀ q ∈ (cleanup_old_terminal_processes termOk procs k).cleaned_processes,
      process_score q ≤ process_score p) := by
  have hperm1 : (find_terminal_processes procs).Perm procs :=
    List.perm_insertionSort newerTerm procs
  have hlen1 : (find_terminal_processes procs).length = procs.length :=
    hperm1.length_eq
  have hperm2 : (List.insertionSort higherScore (find_terminal_processes procs)).Perm procs :=
    (List.perm_insertionSort higherScore (find_terminal_processes procs)).trans hperm1
  have hlen2 : (List.insertionSort higherScore (find_terminal_processes procs)).length =
      procs.length := hperm2.length_eq
  have hsort : List.Pairwise higherScore
      (List.insertionSort higherScore (find_terminal_processes procs)) :=
    List.sorted_insertionSort higherScore (find_terminal_processes procs)
  unfold cleanup_old_terminal_processes
  by_cases hc : (find_terminal_processes procs).length ≤ k
  · rw [if_pos hc]
    refine ⟨?_, by simpa using hperm1, ?_⟩
    · simp only [hlen1]
      omega
    · intro p _ q hq
      simp at hq
  · rw [if_neg hc]
    dsimp only
    push_neg at hc
    have hfilter : ((List.insertionSort higherScore (find_terminal_processes procs)).drop k).filter
        (fun p => termOk p.pid) =
        (List.insertionSort higherScore (find_terminal_processes procs)).drop k := by
      apply List.filter_eq_self.mpr
      intro p hp
      exact hterm p (hperm2.subset (List.mem_of_mem_drop hp))
    refine ⟨?_, ?_, ?_⟩
    · rw [List.length_take, hlen2]
    · rw [hfilter, List.take_append_drop]
      exact hperm2
    · intro p hp q hq
      rw [hfilter] at hq
      exact hsort.rel_of_mem_take_of_mem_drop hp hq

/-- Witness for C8's amended claim at the counterexample pair. -/
theorem cleanup_old_terminal_processes_spec_witness :
    (cleanup_old_terminal_processes (fun _ => true) [witTermOld, witTermNew] 1).kept_processes.length =
      min 1 [witTermOld, witTermNew].length ∧
    ((cleanup_old_terminal_processes (fun _ => true) [witTermOld, witTermNew] 1).kept_processes ++
      (cleanup_old_terminal_processes (fun _ => true) [witTermOld, witTermNew] 1).cleaned_processes).Perm
      [witTermOld, witTermNew] ∧
    (∀ p ∈ (cleanup_old_terminal_processes (fun _ => true) [witTermOld, witTermNew] 1).kept_processes,
     ∀ q ∈ (cleanup_old_terminal_processes (fun _ => true) [witTermOld, witTermNew] 1).cleaned_processes,
      process_score q ≤ process_score p) :=
  cleanup_old_terminal_processes_spec (fun _ => true) [witTermOld, witTermNew] 1 (by decide)

/-- Helper: a passed `_verify_copy_success` check is a first-100-character
match between the written text and the read-back content. -/
theorem first100Match_of_verify (t c : List Char)
    (h : verify_copy_success t c = true) : first100Match t c = true := by
  unfold verify_copy_success at h
  by_cases hc : (!c.isEmpty && decide (10 < c.length)) = true
  · rw [if_pos hc] at h
    unfold first100Match
    simp only [Bool.or_eq_true] at h ⊢
    rcases h with h' | h'
    · exact Or.inl (Or.inl h')
    · exact Or.inl (Or.inr h')
  · rw [if_neg hc] at h
    exact absurd h (by simp)

/-- C9: `copy_to_clipboard` returns `true` only when the backend attempt
that succeeded was followed by a read-back whose first ~100 characters
matched the written text (the `_verify_copy_success` check, or the native
method's inline `text[:100] in content` containment); a write whose
read-back verification fails falls through to the next backend or to the
final `false` return, never to `true`. -/
theorem copy_to_clipboard_verified (env : ClipEnv) (text : List Char)
    (h : copy_to_clipboard env text = true) :
    ∃ c, c ∈ readbackCandidates env ∧ first100Match text c = true := by
  unfold copy_to_clipboard at h
  split_ifs at h with h1 h2 h3 h4
  · simp only [Bool.and_eq_true] at h1
    exact ⟨env.clip_after_pyperclip, by simp [readbackCandidates],
      first100Match_of_verify text env.clip_after_pyperclip h1.2⟩
  · have hsub : isSubstr (List.take 100 text) env.native_content = true := by
      simp only [copy_with_macos_native, Bool.and_eq_true] at h2
      tauto
    refine ⟨env.native_content, by simp [readbackCandidates], ?_⟩
    unfold first100Match
    simp [hsub]
  · simp only [Bool.and_eq_true] at h3
    exact ⟨env.clip_after_applescript, by simp [readbackCandidates],
      first100Match_of_verify text env.clip_after_applescript h3.2⟩
  · simp only [Bool.and_eq_true] at h4
    exact ⟨env.clip_after_pbcopy, by simp [readbackCandidates],
      first100Match_of_verify text env.clip_after_pbcopy h4.2⟩

/-- Witness for C9: a successful, faithfully-read-back pyperclip write of a
22-character text returns `true`, and that run exhibits a matching
read-back candidate. -/
theorem copy_to_clipboard_verified_witness :
    copy_to_clipboard witClipEnv witClipText = true ∧
    ∃ c, c ∈ readbackCandidates witClipEnv ∧ first100Match witClipText c = true :=
  ⟨by decide, copy_to_clipboard_verified witClipEnv witClipText (by decide)⟩

end ClaudeCliAutomation
